import Mathlib

/-!
Shallow embedding of `raiseorlaunch` (src/raiseorlaunch/raiseorlaunch.py,
version 2.3.3) — a run-or-raise application launcher for the i3 window
manager — together with proofs about its matcher, finder, disambiguator
and run-or-raise engine.

Modelling conventions:
* Python strings are `List Char` (`Str`); `Option Str` models values that
  may be `None`.  Python truthiness of a string is `isSome` together with
  non-emptiness where the source tests `not value` on a possibly empty
  string value.
* Regex patterns are an explicit AST (`Regex`) covering the anchor-free
  core of Python regular expressions; `re.match` (match starting at
  position 0, i.e. some prefix of the subject belongs to the pattern
  language) is `reMatch`, built from Brzozowski derivatives, with the
  `re.IGNORECASE` flag modelled by case-folding both pattern and subject
  characters.
* The i3ipc library is an external collaborator; its tree queries
  (`leaves`, `workspaces`, `find_marked`, `find_focused`, `find_by_id`,
  `find_named` + `find_fullscreen`) are modelled from their documented
  behaviour on a `Tree` of workspaces each holding its leaf windows in
  tree-traversal order.
* Side effects (i3 commands) are reified as a command trace `List Cmd`;
  a Python attribute error on `None` is reified as `Option.none` of the
  surrounding computation.
-/

namespace Rol

abbrev Str := List Char

/-- Coerce a Lean string literal to the `Str` model of Python strings. -/
def str (s : String) : Str := s.toList

/-! ## Regex engine: the anchor-free core of Python `re` -/

/-- Abstract syntax of the anchor-free core of Python regular expressions:
empty language, empty string, a literal character, `.` (any character),
alternation, concatenation and Kleene star. -/
inductive Regex : Type where
  | emp : Regex
  | eps : Regex
  | chr : Char → Regex
  | dot : Regex
  | alt : Regex → Regex → Regex
  | cat : Regex → Regex → Regex
  | star : Regex → Regex
deriving DecidableEq, Repr

/-- Does the regex accept the empty string? -/
def Regex.nullable : Regex → Bool
  | .emp => false
  | .eps => true
  | .chr _ => false
  | .dot => false
  | .alt r s => r.nullable || s.nullable
  | .cat r s => r.nullable && s.nullable
  | .star _ => true

/-- Case-folding used when `re.IGNORECASE` is in effect. -/
def cfold (ic : Bool) (c : Char) : Char := if ic then c.toLower else c

/-- Brzozowski derivative of a regex with respect to one character,
with `ic` selecting case-insensitive character comparison
(`re.IGNORECASE` folds both pattern and subject). -/
def Regex.deriv (ic : Bool) : Regex → Char → Regex
  | .emp, _ => .emp
  | .eps, _ => .emp
  | .chr a, c => if cfold ic a = cfold ic c then .eps else .emp
  | .dot, _ => .eps
  | .alt r s, c => .alt (r.deriv ic c) (s.deriv ic c)
  | .cat r s, c =>
      if r.nullable then .alt (.cat (r.deriv ic c) s) (s.deriv ic c)
      else .cat (r.deriv ic c) s
  | .star r, c => .cat (r.deriv ic c) (.star r)

/-- Whole-string acceptance: the subject is in the pattern's language. -/
def acceptsFull (ic : Bool) (r : Regex) (s : Str) : Bool :=
  (s.foldl (Regex.deriv ic) r).nullable

/-- Model of Python `re.match(pattern, s, *flags)` viewed as a Boolean:
true iff some prefix of `s` (possibly empty) is accepted by the pattern.
This is match-at-position-0 (prefix) semantics, not full-string matching. -/
def reMatch (ic : Bool) : Regex → Str → Bool
  | r, [] => r.nullable
  | r, c :: cs => r.nullable || reMatch ic (r.deriv ic c) cs

theorem acceptsFull_nil (ic : Bool) (r : Regex) :
    acceptsFull ic r [] = r.nullable := rfl

theorem acceptsFull_cons (ic : Bool) (r : Regex) (c : Char) (cs : Str) :
    acceptsFull ic r (c :: cs) = acceptsFull ic (r.deriv ic c) cs := rfl

/-- `reMatch` is exactly "some prefix of the subject is accepted in full":
the prefix semantics of Python `re.match`. -/
theorem reMatch_iff (ic : Bool) (r : Regex) (s : Str) :
    reMatch ic r s = true ↔
      ∃ p q : Str, p ++ q = s ∧ acceptsFull ic r p = true := by
  induction s generalizing r with
  | nil =>
    simp only [reMatch]
    constructor
    · intro h
      exact ⟨[], [], rfl, h⟩
    · rintro ⟨p, q, hpq, hp⟩
      have hp0 : p = [] := by
        cases p with
        | nil => rfl
        | cons a as => simp at hpq
      subst hp0
      exact hp
  | cons c cs ih =>
    simp only [reMatch, Bool.or_eq_true]
    constructor
    · rintro (hn | hm)
      · exact ⟨[], c :: cs, rfl, hn⟩
      · obtain ⟨p, q, hpq, hp⟩ := (ih (r.deriv ic c)).mp hm
        refine ⟨c :: p, q, ?_, ?_⟩
        · simp [hpq]
        · simpa [acceptsFull_cons] using hp
    · rintro ⟨p, q, hpq, hp⟩
      cases p with
      | nil =>
        left
        simpa [acceptsFull_nil] using hp
      | cons a as =>
        right
        have hac : a = c := by
          have := congrArg (List.head?) hpq
          simpa using this
        have hcs : as ++ q = cs := by
          have := congrArg (List.tail) hpq
          simpa using this
        subst hac
        exact (ih (r.deriv ic a)).mpr ⟨as, q, hcs, by simpa [acceptsFull_cons] using hp⟩

/-! ## Data model: windows, workspaces, trees -/

/-- `scratchpad_state` of an i3 container: `"none"`, `"fresh"` or `"changed"`. -/
inductive ScratchState : Type where
  | nostate : ScratchState
  | fresh : ScratchState
  | changed : ScratchState
deriving DecidableEq, Repr

/-- A leaf window container (i3ipc `Con`).  `name` holds the window title
(for i3 leaf windows the con name and the window title coincide, so it
models both `Con.name` and `Con.window_title`); `wsName` models the name
of the workspace returned by `Con.workspace()`;
`parent_scratchpad_state` models `con.parent.scratchpad_state`. -/
structure Con : Type where
  id : Nat
  window_class : Option Str
  window_instance : Option Str
  name : Option Str
  focused : Bool
  wsName : Str
  parent_scratchpad_state : ScratchState
  marks : List Str
  fullscreen_mode : Bool
deriving DecidableEq, Repr

/-- A workspace with its leaf windows in tree-traversal order. -/
structure Workspace : Type where
  name : Str
  cons : List Con
deriving DecidableEq, Repr

/-- The window tree snapshot: workspaces in tree-traversal order. -/
structure Tree : Type where
  workspaces : List Workspace
deriving DecidableEq, Repr

/-- Modelled from the spec: i3ipc `Tree.leaves()` — every leaf window of
the tree, in tree-traversal order. -/
def Tree.leaves (t : Tree) : List Con := t.workspaces.flatMap (fun w => w.cons)

/-- Modelled from the spec: i3ipc `Tree.find_marked(mark)` — the windows
carrying the given mark. -/
def Tree.find_marked (t : Tree) (m : Str) : List Con :=
  t.leaves.filter (fun c => decide (m ∈ c.marks))

/-- Modelled from the spec: i3ipc `Tree.find_focused()` — the focused
leaf window, if any. -/
def Tree.find_focused (t : Tree) : Option Con :=
  t.leaves.find? (fun c => c.focused)

/-- Modelled from the spec: i3ipc `Tree.find_by_id(id)`. -/
def Tree.find_by_id (t : Tree) (i : Nat) : Option Con :=
  t.leaves.find? (fun c => decide (c.id = i))

/-! ## Configuration and construction (`Raiseorlaunch.__init__` / `_check_args`) -/

/-- The constructor arguments / configuration of `Raiseorlaunch`.
Optional string arguments are `Option Str` (Python `None` ↦ `none`);
regex arguments are `Option Regex`; `event_time_limit` is a rational,
modelling the numeric (int-or-float) branch of `check_positive`. -/
structure Config : Type where
  command : Str
  wm_class : Option Regex
  wm_instance : Option Regex
  wm_title : Option Regex
  workspace : Option Str
  target_workspace : Option Str
  scratch : Bool
  con_mark : Option Str
  ignore_case : Bool
  event_time_limit : ℚ
  cycle : Bool
  leave_fullscreen : Bool
deriving DecidableEq

/-- `check_positive` on a numeric value: `False` when the value is not
positive, truthy (the value itself) otherwise.  The `ValueError` branch
for non-numeric strings is outside this numeric model. -/
def check_positive (v : ℚ) : Bool := !(v ≤ 0)

/-- The four configuration errors `_check_args` can raise, in source
order. -/
inductive CheckError : Type where
  | noCriteria : CheckError
  | scratchWithWorkspace : CheckError
  | nonPositiveTimeLimit : CheckError
  | ambiguousWorkspace : CheckError
deriving DecidableEq, Repr

/-- `Raiseorlaunch._check_args`, run on the already-constructed attribute
set (in particular `target_workspace` has already been defaulted to
`workspace`).  Returns the first error raised, if any.  Note that the
first check consults only the three window properties — `con_mark` does
not satisfy it. -/
def _check_args (c : Config) : Option CheckError :=
  if c.wm_class = none ∧ c.wm_instance = none ∧ c.wm_title = none then
    some CheckError.noCriteria
  else if (c.workspace.isSome ∨ c.target_workspace.isSome) ∧ c.scratch then
    some CheckError.scratchWithWorkspace
  else if ¬check_positive c.event_time_limit then
    some CheckError.nonPositiveTimeLimit
  else if c.workspace.isSome ∧ c.target_workspace.isSome ∧
          ¬c.workspace = c.target_workspace then
    some CheckError.ambiguousWorkspace
  else
    none

/-- The attribute defaulting performed by `__init__` before the checks:
`self.target_workspace = target_workspace or workspace`. -/
def applyDefaults (a : Config) : Config :=
  { a with target_workspace :=
      match a.target_workspace with
      | some t => some t
      | none => a.workspace }

/-- `Raiseorlaunch.__init__` up to the first i3 query: store the
arguments, default `target_workspace` to `workspace`, then run
`_check_args`, raising (`Except.error`) on a violated check. -/
def mkConfig (a : Config) : Except CheckError Config :=
  match _check_args (applyDefaults a) with
  | some e => Except.error e
  | none => Except.ok (applyDefaults a)

/-! ## Matcher (`_match_regex`, `_compare_running`) and finder -/

/-- One iteration of the `_compare_running` loop for a (pattern, value)
pair: `if pattern and (not value or not self._match_regex(pattern, value)):
return False`.  Python truthiness of `value` makes an absent (`None`) or
empty property fail any non-empty criterion. -/
def critCheck (ic : Bool) (pat : Option Regex) (value : Option Str) : Bool :=
  match pat with
  | none => true
  | some p =>
    match value with
    | none => false
    | some v => !v.isEmpty && reMatch ic p v

/-- `Raiseorlaunch._compare_running`: all three criteria checks pass. -/
def _compare_running (cfg : Config) (w : Con) : Bool :=
  critCheck cfg.ignore_case cfg.wm_class w.window_class &&
  critCheck cfg.ignore_case cfg.wm_instance w.window_instance &&
  critCheck cfg.ignore_case cfg.wm_title w.name

/-- `Raiseorlaunch._get_window_list`: all leaves, scratchpad-resident
leaves, or the leaves of the named workspace (empty when the workspace
does not exist). -/
def _get_window_list (cfg : Config) (t : Tree) : List Con :=
  match cfg.workspace with
  | none =>
    if cfg.scratch then
      t.leaves.filter (fun l =>
        decide (l.parent_scratchpad_state = ScratchState.changed ∨
                l.parent_scratchpad_state = ScratchState.fresh))
    else
      t.leaves
  | some wsn =>
    match t.workspaces.find? (fun ws => decide (ws.name = wsn)) with
    | some ws => ws.cons
    | none => []

/-- `Raiseorlaunch._find_marked_window`: look up the marked windows; when
a workspace is configured and the first hit lives on a different
workspace, the result is discarded (`found = None`).  The Python
`None`/`[]` results are both falsy downstream and are collapsed to `[]`. -/
def _find_marked_window (workspace : Option Str) (t : Tree) (m : Str) : List Con :=
  let found := t.find_marked m
  match found, workspace with
  | f :: rest, some wsn => if f.wsName = wsn then f :: rest else []
  | _, _ => found

/-- `Raiseorlaunch._is_running`: marker mode delegates to
`_find_marked_window`; property mode filters the window list, skipping
windows whose class, instance and title are all `None` before matching.
The Python `None` result (no match) is collapsed to `[]` (both falsy). -/
def _is_running (cfg : Config) (t : Tree) : List Con :=
  match cfg.con_mark with
  | some m => _find_marked_window cfg.workspace t m
  | none =>
    (_get_window_list cfg t).filter (fun l =>
      !(l.window_class.isNone && l.window_instance.isNone && l.name.isNone) &&
      _compare_running cfg l)

/-! ## Command trace model of i3 side effects -/

/-- The i3 commands the engine can issue, reified. -/
inductive Cmd : Type where
  | switchWs : Str → Cmd
  | focusCon : Nat → Cmd
  | moveConToWs : Nat → Str → Cmd
  | floatingEnable : Nat → Cmd
  | moveScratchpad : Nat → Cmd
  | scratchpadShow : Nat → Cmd
  | setMark : Nat → Str → Cmd
  | execCmd : Str → Cmd
  | fullscreen : Nat → Cmd
  | subscribeNewWindow : Cmd
  | runEventLoop : ℚ → Cmd
deriving DecidableEq, Repr

/-- `Raiseorlaunch._need_to_listen_to_events`:
`any([self.scratch, self.con_mark, self.target_workspace])`. -/
def _need_to_listen_to_events (cfg : Config) : Bool :=
  cfg.scratch || cfg.con_mark.isSome || cfg.target_workspace.isSome

/-- `Raiseorlaunch.leave_fullscreen_on_workspace` (exceptions defaulted to
`[]` as at its only engine call site): toggle fullscreen off for every
fullscreen window on the named workspace.  The i3ipc queries
`find_named("^name$")` and `find_fullscreen()` are modelled from the spec
as "every window on the target workspace with fullscreen state". -/
def leave_fullscreen_on_workspace (t : Tree) (wsName : Str) : List Cmd :=
  match t.workspaces.find? (fun ws => decide (ws.name = wsName)) with
  | none => []
  | some ws => (ws.cons.filter (fun c => c.fullscreen_mode)).map
      (fun c => Cmd.fullscreen c.id)

/-- The first two blocks of `_handle_not_running`: the conditional switch
to the target workspace and the conditional fullscreen clearing, both
issued before any event subscription or launch. -/
def launchPrelude (cfg : Config) (t : Tree) (cw : Str) : List Cmd :=
  (match cfg.target_workspace with
   | some tw => if cw = tw then [] else [Cmd.switchWs tw]
   | none => []) ++
  (if cfg.leave_fullscreen then
     leave_fullscreen_on_workspace t (cfg.target_workspace.getD cw)
   else [])

/-- `Raiseorlaunch._handle_not_running` as a command trace.  `cw` is
`self.current_ws.name`.  The subscription to `window::new` events and the
blocking `i3.main(timeout=event_time_limit)` call are reified as trace
elements. -/
def _handle_not_running (cfg : Config) (t : Tree) (cw : Str) : List Cmd :=
  launchPrelude cfg t cw ++
  (if _need_to_listen_to_events cfg then [Cmd.subscribeNewWindow] else []) ++
  [Cmd.execCmd cfg.command] ++
  (if _need_to_listen_to_events cfg then [Cmd.runEventLoop cfg.event_time_limit] else [])

/-- `Raiseorlaunch._callback_new_window` as a command trace.  `freshTree`
models `connection.get_tree()` inside the callback; looking up the new
window there may fail (`find_by_id` returns `None`), in which case the
source would crash on `w.workspace()` — reified as `none`. -/
def _callback_new_window (cfg : Config) (freshTree : Tree) (window : Con) :
    Option (List Cmd) :=
  if _compare_running cfg window then
    let scratchCmds : List Cmd :=
      if cfg.scratch then
        [Cmd.floatingEnable window.id, Cmd.moveScratchpad window.id,
         Cmd.scratchpadShow window.id]
      else []
    let markCmds : List Cmd :=
      match cfg.con_mark with
      | some m => [Cmd.setMark window.id m]
      | none => []
    match cfg.target_workspace with
    | some tw =>
      match freshTree.find_by_id window.id with
      | some w =>
        some (scratchCmds ++ markCmds ++
          (if w.wsName = tw then [] else [Cmd.moveConToWs w.id tw]))
      | none => none
    | none => some (scratchCmds ++ markCmds)
  else
    some []

/-! ## Engine state and the RAISING branch -/

/-- `Raiseorlaunch.get_current_workspace`:
`self.tree.find_focused().workspace()`, reduced to the workspace name.
`none` models the attribute crash when no leaf is focused. -/
def get_current_workspace (t : Tree) : Option Str :=
  (t.find_focused).map (fun c => c.wsName)

/-- The engine after construction: the configuration and the single tree
snapshot fetched once in `__init__` (`self.tree = self.i3.get_tree()`). -/
structure Engine : Type where
  cfg : Config
  tree : Tree
deriving DecidableEq

/-- `self.current_ws = self.get_current_workspace()` in `__init__`,
computed from the engine's single tree snapshot. -/
def Engine.current_ws (e : Engine) : Option Str :=
  get_current_workspace e.tree

/-- `Raiseorlaunch._choose_if_multiple`: one match is returned as is;
otherwise the first match, preferring (when a target workspace is set)
the first match whose workspace name equals the target workspace.
`none` models the `running[0]` crash on an empty list. -/
def _choose_if_multiple (target : Option Str) (running : List Con) : Option Con :=
  match running with
  | [] => none
  | r :: rest =>
    if rest = [] then some r
    else
      match target with
      | none => some r
      | some tw =>
        some (((r :: rest).find? (fun w => decide (w.wsName = tw))).getD r)

/-- `Raiseorlaunch._handle_running_no_scratch` on the engine state: focus
an unfocused window; for a focused window compare the workspace captured
at construction with a re-read of the current workspace (both from
`self.tree`) and re-issue the workspace switch when they agree.  `none`
models the attribute crash when no leaf is focused. -/
def _handle_running_no_scratch (e : Engine) (w : Con) : Option (List Cmd) :=
  if w.focused = false then
    some [Cmd.focusCon w.id]
  else
    match Engine.current_ws e, get_current_workspace e.tree with
    | some initName, some nowName =>
      some (if initName = nowName then [Cmd.switchWs initName] else [])
    | _, _ => none

/-- `Raiseorlaunch._handle_running_scratch`: focus an unfocused window on
the current workspace, otherwise toggle scratchpad visibility. -/
def _handle_running_scratch (e : Engine) (w : Con) : Option (List Cmd) :=
  if w.focused = false then
    match Engine.current_ws e with
    | some cwName =>
      some (if cwName = w.wsName then [Cmd.focusCon w.id] else [Cmd.scratchpadShow w.id])
    | none => none
  else
    some [Cmd.scratchpadShow w.id]

/-- The scan of `_handle_running_cycle`: walk the (extended) window list;
once a focused window has been seen (`switch`), return the next window. -/
def cycleScan : List Con → Bool → Option Con
  | [], _ => none
  | w :: ws, sw => if sw then some w else cycleScan ws w.focused

/-- The window chosen by `Raiseorlaunch._handle_running_cycle`:
`windows.append(windows[0])` then the scan.  `none` models both the empty
list crash and the no-focused-window error branch. -/
def _handle_running_cycle_choice : List Con → Option Con
  | [] => none
  | w :: ws => cycleScan ((w :: ws) ++ [w]) false

/-- `Raiseorlaunch._handle_running_cycle` as a command trace: focus the
chosen successor window. -/
def _handle_running_cycle (windows : List Con) : List Cmd :=
  match _handle_running_cycle_choice windows with
  | some w => [Cmd.focusCon w.id]
  | none => []

/-- The three continuations `_handle_running` can dispatch to. -/
inductive RunPath : Type where
  | cyclePath : RunPath
  | scratchPath : RunPath
  | noScratchPath : RunPath
deriving DecidableEq, Repr

/-- The dispatch of `Raiseorlaunch._handle_running`: cycle when cycling
is enabled, more than one window matches and one of them is focused;
otherwise choose a single window and handle it on the scratchpad or
normal path. -/
def _handle_running_path (cfg : Config) (running : List Con) : RunPath :=
  if cfg.cycle ∧ 1 < running.length ∧ running.any (fun w => w.focused) then
    RunPath.cyclePath
  else if cfg.scratch then
    RunPath.scratchPath
  else
    RunPath.noScratchPath

/-! ## Focus-state helpers for the cycling claim -/

/-- Replace a window's focused flag. -/
def setFocus (c : Con) (b : Bool) : Con := { c with focused := b }

/-- Clear every focused flag. -/
def unfocusAll (l : List Con) : List Con := l.map (fun c => setFocus c false)

/-- The window list with exactly the `i`-th window focused (i3's
invariant: at most one focused window). -/
def withFocus : List Con → Nat → List Con
  | [], _ => []
  | c :: cs, 0 => setFocus c true :: unfocusAll cs
  | c :: cs, Nat.succ i => setFocus c false :: withFocus cs i

/-! ## Spec-side matcher predicates -/

/-- One criterion as the spec words it: whenever the criterion pattern is
non-empty, the corresponding window property exists and some prefix of it
is accepted by the pattern (regex match starting at position 0). -/
def PropSatClaimed (ic : Bool) (pat : Option Regex) (value : Option Str) : Prop :=
  ∀ p, pat = some p → ∃ v, value = some v ∧
    ∃ pre suf : Str, pre ++ suf = v ∧ acceptsFull ic p pre = true

/-- One criterion as the code enforces it: whenever the criterion pattern
is non-empty, the corresponding window property exists, is non-empty, and
some prefix of it is accepted by the pattern. -/
def PropSatCode (ic : Bool) (pat : Option Regex) (value : Option Str) : Prop :=
  ∀ p, pat = some p → ∃ v, value = some v ∧ v ≠ [] ∧
    ∃ pre suf : Str, pre ++ suf = v ∧ acceptsFull ic p pre = true

/-! ## Concrete fixtures for witnesses and counterexamples -/

/-- A baseline configuration: launch `qutebrowser`, no criteria, no
scopes, defaults as in the source signature. -/
def baseCfg : Config :=
  { command := str "qutebrowser"
    wm_class := none
    wm_instance := none
    wm_title := none
    workspace := none
    target_workspace := none
    scratch := false
    con_mark := none
    ignore_case := false
    event_time_limit := 2
    cycle := false
    leave_fullscreen := false }

/-- A baseline leaf window with no properties. -/
def baseCon : Con :=
  { id := 0
    window_class := none
    window_instance := none
    name := none
    focused := false
    wsName := str "1"
    parent_scratchpad_state := ScratchState.nostate
    marks := []
    fullscreen_mode := false }

/-- The regex `.*`. -/
def dotStar : Regex := Regex.star Regex.dot

/-- The regex `qute` (a literal-prefix pattern). -/
def quteRegex : Regex :=
  Regex.cat (Regex.chr 'q') (Regex.cat (Regex.chr 'u')
    (Regex.cat (Regex.chr 't') (Regex.chr 'e')))

/-- C1 counterexample configuration: class criterion `.*`, nothing else. -/
def c1cexCfg : Config := { baseCfg with wm_class := some dotStar }

/-- C1 counterexample window: its class property exists but is the empty
string. -/
def c1cexCon : Con := { baseCon with id := 1, window_class := some [] }

/-- C1 counterexample tree: one workspace holding that window. -/
def c1cexTree : Tree := { workspaces := [{ name := str "1", cons := [c1cexCon] }] }

/-- C1 witness window: class `qutebrowser`, title set, on workspace 1. -/
def c1witCon : Con :=
  { baseCon with id := 2, window_class := some (str "qutebrowser"),
                 name := some (str "doc - qutebrowser") }

/-- C1 witness configuration: class criterion `qute` (prefix of the
window class). -/
def c1witCfg : Config := { baseCfg with wm_class := some quteRegex }

/-- C1 witness tree. -/
def c1witTree : Tree :=
  { workspaces := [{ name := str "1", cons := [baseCon, c1witCon] }] }

/-- C2 counterexample: all three patterns empty but a marker set. -/
def c2cexCfg : Config := { baseCfg with con_mark := some (str "pinned") }

/-- C3 witness: marker `pinned` scoped to workspace `2`. -/
def c3witCfg : Config :=
  { baseCfg with wm_class := some quteRegex,
                 con_mark := some (str "pinned"),
                 workspace := some (str "2") }

/-- C3 witness marked window, living on workspace `3`. -/
def c3witCon : Con :=
  { baseCon with id := 3, window_class := some (str "qutebrowser"),
                 wsName := str "3", marks := [str "pinned"] }

/-- C3 witness tree: the marked window lives on workspace `3`, not `2`. -/
def c3witTree : Tree :=
  { workspaces := [{ name := str "2", cons := [baseCon] },
                   { name := str "3", cons := [c3witCon] }] }

/-- Windows used by the disambiguator and cycling witnesses. -/
def wA : Con := { baseCon with id := 10, wsName := str "1" }

/-- Second witness window, on workspace `2`. -/
def wB : Con := { baseCon with id := 11, wsName := str "2" }

/-- Third witness window, on workspace `2`. -/
def wC : Con := { baseCon with id := 12, wsName := str "2" }

/-- C6 witness configuration: scratchpad requested, so the engine must
listen for window events. -/
def c6witCfg : Config := { baseCfg with wm_class := some quteRegex, scratch := true }

/-- C6 second witness configuration: no marker, no scratchpad, no target
workspace — no listening. -/
def c6witCfgNoListen : Config := { baseCfg with wm_class := some quteRegex }

/-- An empty tree. -/
def emptyTree : Tree := { workspaces := [] }

/-- C7 witness configuration: scratchpad, marker and target workspace all
requested (workspace scope `2`). -/
def c7witCfg : Config :=
  { baseCfg with wm_class := some quteRegex,
                 con_mark := some (str "pinned"),
                 target_workspace := some (str "2") }

/-- C7 witness: the newly created window, matching the class criterion. -/
def c7witCon : Con :=
  { baseCon with id := 20, window_class := some (str "qutebrowser"), wsName := str "1" }

/-- C7 witness fresh tree: the new window is found on workspace `1`. -/
def c7witTree : Tree :=
  { workspaces := [{ name := str "1", cons := [c7witCon] }] }

/-- C8/C9 witness engine: a focused qutebrowser window on workspace `1`. -/
def c8witCon : Con :=
  { baseCon with id := 30, window_class := some (str "qutebrowser"), focused := true }

/-- C8/C9 witness engine state. -/
def c8witEngine : Engine :=
  { cfg := { baseCfg with wm_class := some quteRegex }
    tree := { workspaces := [{ name := str "1", cons := [c8witCon] }] } }

/-- C10 witness constructor arguments: only a search workspace `2`. -/
def c10witArgs : Config :=
  { baseCfg with wm_class := some quteRegex, workspace := some (str "2") }

/-- C10 witness: the configuration produced by construction. -/
def c10witCfg : Config := { c10witArgs with target_workspace := some (str "2") }

/-- C10 witness: a matching new window found on workspace `1`. -/
def c10witCon : Con :=
  { baseCon with id := 40, window_class := some (str "qutebrowser"), wsName := str "1" }

/-- C10 witness fresh tree. -/
def c10witTree : Tree :=
  { workspaces := [{ name := str "1", cons := [c10witCon] }] }

/-! ## Theorems -/

/-- Bridge: the Boolean criterion check of `_compare_running` is exactly
the code-side predicate (property present, non-empty, prefix-matched). -/
theorem critCheck_iff (ic : Bool) (pat : Option Regex) (value : Option Str) :
    critCheck ic pat value = true ↔ PropSatCode ic pat value := by
  cases pat with
  | none => simp [critCheck, PropSatCode]
  | some p =>
    cases value with
    | none => simp [critCheck, PropSatCode]
    | some v =>
      simp only [critCheck, Bool.and_eq_true, Bool.not_eq_true', PropSatCode]
      constructor
      · rintro ⟨hne, hm⟩ p' hp'
        injection hp' with hpp
        subst hpp
        obtain ⟨pre, suf, hs, ha⟩ := (reMatch_iff ic p v).mp hm
        refine ⟨v, rfl, ?_, pre, suf, hs, ha⟩
        intro hv
        subst hv
        simp at hne
      · intro h
        obtain ⟨v', hv', hvne, pre, suf, hs, ha⟩ := h p rfl
        injection hv' with hvv
        subst hvv
        refine ⟨?_, (reMatch_iff ic p v).mpr ⟨pre, suf, hs, ha⟩⟩
        cases v with
        | nil => exact absurd rfl hvne
        | cons a as => rfl

/-- C1 (amended): in property mode (no marker), a window is in the
MatchSet exactly when it is a candidate leaf of the configured scope,
has at least one of class, instance and title present, and, for every
non-empty criterion pattern, the corresponding window property exists,
is a non-empty string, and satisfies a regex match starting at position 0
(prefix semantics), case-insensitively when `ignore_case` is set. -/
theorem C1_property_mode_match (cfg : Config) (t : Tree) (w : Con)
    (hmark : cfg.con_mark = none) :
    w ∈ _is_running cfg t ↔
      w ∈ _get_window_list cfg t ∧
      ¬(w.window_class = none ∧ w.window_instance = none ∧ w.name = none) ∧
      PropSatCode cfg.ignore_case cfg.wm_class w.window_class ∧
      PropSatCode cfg.ignore_case cfg.wm_instance w.window_instance ∧
      PropSatCode cfg.ignore_case cfg.wm_title w.name := by
  unfold _is_running
  rw [hmark]
  rw [List.mem_filter]
  simp only [Bool.and_eq_true, Bool.not_eq_true', _compare_running,
    critCheck_iff]
  constructor
  · rintro ⟨hmem, hskip, ⟨h1, h2⟩, h3⟩
    refine ⟨hmem, ?_, h1, h2, h3⟩
    intro hall
    rw [hall.1, hall.2.1, hall.2.2] at hskip
    simp at hskip
  · rintro ⟨hmem, hskip, h1, h2, h3⟩
    refine ⟨hmem, ?_, ⟨h1, h2⟩, h3⟩
    cases hc : w.window_class.isNone with
    | false => simp [hc]
    | true =>
      cases hi : w.window_instance.isNone with
      | false => simp [hc, hi]
      | true =>
        cases hn : w.name.isNone with
        | false => simp [hc, hi, hn]
        | true =>
          exact absurd ⟨Option.isNone_iff_eq_none.mp hc,
            Option.isNone_iff_eq_none.mp hi,
            Option.isNone_iff_eq_none.mp hn⟩ hskip

/-- C1 witness: a concrete configuration and tree on which the amended
characterization is evaluated. -/
theorem C1_property_mode_match_witness :
    c1witCfg.con_mark = none ∧
    (c1witCon ∈ _is_running c1witCfg c1witTree ↔
      c1witCon ∈ _get_window_list c1witCfg c1witTree ∧
      ¬(c1witCon.window_class = none ∧ c1witCon.window_instance = none ∧
        c1witCon.name = none) ∧
      PropSatCode c1witCfg.ignore_case c1witCfg.wm_class c1witCon.window_class ∧
      PropSatCode c1witCfg.ignore_case c1witCfg.wm_instance c1witCon.window_instance ∧
      PropSatCode c1witCfg.ignore_case c1witCfg.wm_title c1witCon.name) :=
  ⟨rfl, C1_property_mode_match c1witCfg c1witTree c1witCon rfl⟩

/-- C1 counterexample: a window whose class property exists but is the
empty string, against the class criterion `.*`.  The claim's conditions
(candidate leaf, not all properties absent, every non-empty criterion's
property exists and matches at position 0) all hold, yet the window is
not in the MatchSet, because the source treats the empty string as falsy
(`not value`) and fails the criterion. -/
theorem C1_counterexample :
    c1cexCfg.con_mark = none ∧
    c1cexCon ∈ _get_window_list c1cexCfg c1cexTree ∧
    ¬(c1cexCon.window_class = none ∧ c1cexCon.window_instance = none ∧
      c1cexCon.name = none) ∧
    PropSatClaimed c1cexCfg.ignore_case c1cexCfg.wm_class c1cexCon.window_class ∧
    PropSatClaimed c1cexCfg.ignore_case c1cexCfg.wm_instance c1cexCon.window_instance ∧
    PropSatClaimed c1cexCfg.ignore_case c1cexCfg.wm_title c1cexCon.name ∧
    c1cexCon ∉ _is_running c1cexCfg c1cexTree := by
  refine ⟨rfl, by decide, by decide, ?_, ?_, ?_, by decide⟩
  · intro p hp
    injection hp with hpp
    subst hpp
    exact ⟨[], rfl, [], [], rfl, rfl⟩
  · intro p hp
    simp [c1cexCfg, baseCfg] at hp
  · intro p hp
    simp [c1cexCfg, baseCfg] at hp

/-- C2 counterexample: a configuration with all three patterns empty but
a marker set, and no other conflict, is rejected at construction with the
no-criteria error, while the claim says it is accepted. -/
theorem C2_counterexample :
    c2cexCfg.con_mark.isSome = true ∧
    c2cexCfg.wm_class = none ∧ c2cexCfg.wm_instance = none ∧
    c2cexCfg.wm_title = none ∧ c2cexCfg.scratch = false ∧
    c2cexCfg.workspace = none ∧ c2cexCfg.target_workspace = none ∧
    (0 : ℚ) < c2cexCfg.event_time_limit ∧
    mkConfig c2cexCfg = Except.error CheckError.noCriteria := by
  refine ⟨rfl, rfl, rfl, rfl, rfl, rfl, rfl, by norm_num [c2cexCfg, baseCfg], rfl⟩

/-- C2 (amended): construction raises a configuration error exactly when
all three patterns are empty (a marker does not satisfy the criteria
check), or a workspace or target workspace is combined with the
scratchpad, or the event time limit is not positive, or workspace and
target workspace are both supplied but differ. -/
theorem C2_construction_error_iff (a : Config) :
    (∃ e, mkConfig a = Except.error e) ↔
      ((a.wm_class = none ∧ a.wm_instance = none ∧ a.wm_title = none) ∨
       ((a.workspace.isSome = true ∨ a.target_workspace.isSome = true) ∧
        a.scratch = true) ∨
       a.event_time_limit ≤ 0 ∨
       (a.workspace.isSome = true ∧ a.target_workspace.isSome = true ∧
        ¬a.workspace = a.target_workspace)) := by
  have herr : (∃ e, mkConfig a = Except.error e) ↔
      ¬_check_args (applyDefaults a) = none := by
    unfold mkConfig
    cases h : _check_args (applyDefaults a) <;> simp [h]
  have hchk : ∀ c : Config, ¬_check_args c = none ↔
      ((c.wm_class = none ∧ c.wm_instance = none ∧ c.wm_title = none) ∨
       ((c.workspace.isSome = true ∨ c.target_workspace.isSome = true) ∧
        c.scratch = true) ∨
       c.event_time_limit ≤ 0 ∨
       (c.workspace.isSome = true ∧ c.target_workspace.isSome = true ∧
        ¬c.workspace = c.target_workspace)) := by
    intro c
    unfold _check_args check_positive
    split_ifs with h1 h2 h3 h4 <;> simp_all
  rw [herr, hchk]
  have hfields : (applyDefaults a).wm_class = a.wm_class ∧
      (applyDefaults a).wm_instance = a.wm_instance ∧
      (applyDefaults a).wm_title = a.wm_title ∧
      (applyDefaults a).workspace = a.workspace ∧
      (applyDefaults a).scratch = a.scratch ∧
      (applyDefaults a).event_time_limit = a.event_time_limit :=
    ⟨rfl, rfl, rfl, rfl, rfl, rfl⟩
  obtain ⟨f1, f2, f3, f4, f5, f6⟩ := hfields
  rw [f1, f2, f3, f4, f5, f6]
  cases hta : a.target_workspace with
  | none =>
    have htd : (applyDefaults a).target_workspace = a.workspace := by
      unfold applyDefaults
      rw [hta]
    rw [htd]
    cases hwa : a.workspace with
    | none => simp
    | some wsn => simp
  | some tw =>
    have htd : (applyDefaults a).target_workspace = some tw := by
      unfold applyDefaults
      rw [hta]
    rw [htd]

/-- C3: in marker mode with a workspace scope configured, a marker hit
outside the scope counts as no match: if the window carrying the marker
(unique, as i3 attaches a mark to at most one window) lives on a
different workspace than the configured one, the finder returns an empty
result. -/
theorem C3_marker_scope (cfg : Config) (t : Tree) (m wsn : Str) (w : Con)
    (hm : cfg.con_mark = some m) (hws : cfg.workspace = some wsn)
    (hwin : w ∈ t.leaves) (hmarked : m ∈ w.marks)
    (huniq : ∀ w' ∈ t.leaves, m ∈ w'.marks → w' = w)
    (hdiff : w.wsName ≠ wsn) :
    _is_running cfg t = [] := by
  have hwf : w ∈ t.find_marked m := by
    unfold Tree.find_marked
    exact List.mem_filter.mpr ⟨hwin, decide_eq_true hmarked⟩
  unfold _is_running
  rw [hm, hws]
  unfold _find_marked_window
  cases hfm : t.find_marked m with
  | nil =>
    rw [hfm] at hwf
    simp at hwf
  | cons f rest =>
    have hf : f ∈ t.find_marked m := by
      rw [hfm]
      exact List.mem_cons_self f rest
    unfold Tree.find_marked at hf
    rw [List.mem_filter] at hf
    have hfw : f = w := huniq f hf.1 (of_decide_eq_true hf.2)
    simp only [hfm]
    rw [if_neg]
    rw [hfw]
    exact hdiff

/-- C3 witness: marker `pinned` scoped to workspace `2`, the marked
window lives on workspace `3`. -/
theorem C3_marker_scope_witness :
    c3witCfg.con_mark = some (str "pinned") ∧
    c3witCfg.workspace = some (str "2") ∧
    c3witCon ∈ c3witTree.leaves ∧
    str "pinned" ∈ c3witCon.marks ∧
    c3witCon.wsName ≠ str "2" ∧
    _is_running c3witCfg c3witTree = [] :=
  ⟨rfl, rfl, by decide, by decide, by decide,
    C3_marker_scope c3witCfg c3witTree (str "pinned") (str "2") c3witCon
      rfl rfl (by decide) (by decide) (by decide) (by decide)⟩

/-- C4: the disambiguator returns the single element of a singleton
MatchSet; with multiple matches and no target workspace the first match
in tree order; with a target workspace the first match whose workspace
name equals it, falling back to the first in tree order (`find?`/`getD`).
Determinism and purity are inherent: it is a function of the MatchSet
and the target workspace only. -/
theorem C4_choose_if_multiple (target : Option Str) (r : Con) (rest : List Con) :
    (rest = [] → _choose_if_multiple target (r :: rest) = some r) ∧
    (target = none → _choose_if_multiple target (r :: rest) = some r) ∧
    (∀ tw, target = some tw →
      _choose_if_multiple target (r :: rest) =
        some (((r :: rest).find? (fun w => decide (w.wsName = tw))).getD r)) := by
  refine ⟨?_, ?_, ?_⟩
  · intro h
    subst h
    rfl
  · intro h
    subst h
    by_cases h1 : rest = [] <;> simp [_choose_if_multiple, h1]
  · intro tw h
    subst h
    by_cases h1 : rest = []
    · subst h1
      cases hp : decide (r.wsName = tw) <;>
        simp [_choose_if_multiple, List.find?, hp]
    · simp [_choose_if_multiple, h1]

/-- C4 witness: three windows, target workspace `2`; windows `wB` and
`wC` live on `2`, so the first of them is chosen. -/
theorem C4_choose_if_multiple_witness :
    _choose_if_multiple (some (str "2")) [wA, wB, wC] =
      some ((([wA, wB, wC]).find? (fun w => decide (w.wsName = str "2"))).getD wA) ∧
    (([wA, wB, wC]).find? (fun w => decide (w.wsName = str "2"))).getD wA = wB ∧
    _choose_if_multiple none [wA, wB, wC] = some wA ∧
    _choose_if_multiple (some (str "2")) [wA] = some wA :=
  ⟨(C4_choose_if_multiple (some (str "2")) wA [wB, wC]).2.2 (str "2") rfl,
   by decide,
   (C4_choose_if_multiple none wA [wB, wC]).2.1 rfl,
   (C4_choose_if_multiple (some (str "2")) wA []).1 rfl⟩

/-- Once the focused window has been seen, the scan returns the next
window in the list. -/
theorem cycleScan_switch (l : List Con) : cycleScan l true = l.head? := by
  cases l with
  | nil => rfl
  | cons w ws => rfl

/-- Scanning past the unique focused position: on a window list with
exactly position `i` focused followed by `rest`, the scan yields the
window after position `i`, falling through to `rest` when `i` is last. -/
theorem cycleScan_withFocus (cs : List Con) (i : Nat) (rest : List Con)
    (h : i < cs.length) :
    cycleScan (withFocus cs i ++ rest) false =
      match cs[i+1]? with
      | some d => some (setFocus d false)
      | none => rest.head? := by
  induction cs generalizing i with
  | nil => simp at h
  | cons c cs ih =>
    cases i with
    | zero =>
      have h1 : cycleScan (withFocus (c :: cs) 0 ++ rest) false =
          cycleScan (unfocusAll cs ++ rest) true := rfl
      rw [h1, cycleScan_switch]
      cases cs with
      | nil => simp [unfocusAll]
      | cons d ds => simp [unfocusAll]
    | succ j =>
      have h1 : cycleScan (withFocus (c :: cs) (j + 1) ++ rest) false =
          cycleScan (withFocus cs j ++ rest) false := rfl
      have hj : j < cs.length := by
        simpa using Nat.lt_of_succ_lt_succ h
      rw [h1, ih j hj]
      simp

/-- Iterating the successor-mod-`N` index map. -/
theorem iterate_succ_mod (N : Nat) (i : Nat) (hi : i < N) (k : Nat) :
    Nat.iterate (fun j => (j + 1) % N) k i = (i + k) % N := by
  induction k with
  | zero => simpa using (Nat.mod_eq_of_lt hi).symm
  | succ k ih =>
    rw [Function.iterate_succ_apply', ih]
    show ((i + k) % N + 1) % N = (i + (k + 1)) % N
    rw [Nat.mod_add_mod, Nat.add_assoc]

/-- C5: with cycling over `N ≥ 2` matches and the `i`-th focused, the
engine focuses the successor in tree order, circularly (`(i+1) mod N`);
iterating the induced index map `N` times is the identity, so `N`
consecutive cycle invocations return focus to the original window; and
when no match is focused, the cycle path is never taken and the normal
handling path is used. -/
theorem C5_cycle_successor (cfg : Config) (ws : List Con) (i : Nat) (target : Con)
    (h2 : 2 ≤ ws.length) (hi : i < ws.length)
    (ht : ws[(i + 1) % ws.length]? = some target) :
    _handle_running_cycle (withFocus ws i) = [Cmd.focusCon target.id] ∧
    Nat.iterate (fun j => (j + 1) % ws.length) ws.length i = i ∧
    (∀ running : List Con, (∀ w ∈ running, w.focused = false) →
      _handle_running_path cfg running ≠ RunPath.cyclePath) := by
  refine ⟨?_, ?_, ?_⟩
  · cases ws with
    | nil => simp at h2
    | cons c cs =>
      cases i with
      | zero =>
        cases cs with
        | nil => simp at h2
        | cons d ds =>
          have htd : d = target := by
            have hlt : 0 + 1 < (c :: d :: ds).length := by
              simp only [List.length_cons]
              omega
            rw [Nat.mod_eq_of_lt hlt] at ht
            simpa using ht
          subst htd
          rfl
      | succ j =>
        have hj : j < cs.length := by
          simpa using Nat.lt_of_succ_lt_succ hi
        have hstep : _handle_running_cycle (withFocus (c :: cs) (j + 1)) =
            (match cycleScan (withFocus cs j ++ [setFocus c false]) false with
             | some w => [Cmd.focusCon w.id]
             | none => []) := rfl
        rw [hstep, cycleScan_withFocus cs j [setFocus c false] hj]
        rcases Nat.lt_or_ge (j + 1) cs.length with hlt | hge
        · have hmod : (j + 1 + 1) % (c :: cs).length = j + 1 + 1 := by
            apply Nat.mod_eq_of_lt
            simp only [List.length_cons]
            omega
          rw [hmod] at ht
          have ht' : cs[j + 1]? = some target := by simpa using ht
          rw [ht']
          rfl
        · have hje : j + 1 = cs.length := by omega
          have hnone : cs[j + 1]? = none := by
            rw [List.getElem?_eq_none_iff]
            omega
          rw [hnone]
          have hmod : (j + 1 + 1) % (c :: cs).length = 0 := by
            simp only [List.length_cons, hje]
            simp
          rw [hmod] at ht
          have htc : c = target := by simpa using ht
          subst htc
          rfl
  · rw [iterate_succ_mod ws.length i hi ws.length]
    rw [Nat.add_mod_right]
    exact Nat.mod_eq_of_lt hi
  · intro running hall
    unfold _handle_running_path
    rw [if_neg]
    · by_cases hs : cfg.scratch = true <;> simp [hs]
    · rintro ⟨-, -, hany⟩
      rw [List.any_eq_true] at hany
      obtain ⟨w, hw, hf⟩ := hany
      rw [hall w hw] at hf
      cases hf

/-- C5 witness: three unfocused windows with the first made focused; the
engine focuses the second, and three iterations of the index map return
to the start. -/
theorem C5_cycle_successor_witness :
    _handle_running_cycle (withFocus [wA, wB, wC] 0) = [Cmd.focusCon wB.id] ∧
    Nat.iterate (fun j => (j + 1) % ([wA, wB, wC] : List Con).length)
      ([wA, wB, wC] : List Con).length 0 = 0 ∧
    _handle_running_path baseCfg [wA] ≠ RunPath.cyclePath := by
  obtain ⟨h1, h2, h3⟩ :=
    C5_cycle_successor baseCfg [wA, wB, wC] 0 wB (by decide) (by decide) (by decide)
  exact ⟨h1, h2, h3 [wA] (by decide)⟩

/-- The commands issued before the launch phase are only workspace
switches and fullscreen toggles. -/
theorem mem_launchPrelude (cfg : Config) (t : Tree) (cw : Str) (c : Cmd)
    (hc : c ∈ launchPrelude cfg t cw) :
    (∃ n, c = Cmd.switchWs n) ∨ (∃ i, c = Cmd.fullscreen i) := by
  unfold launchPrelude at hc
  rw [List.mem_append] at hc
  rcases hc with hc | hc
  · left
    rcases hta : cfg.target_workspace with _ | tw <;> simp only [hta] at hc
    · simp at hc
    · split_ifs at hc
      · simp at hc
      · rw [List.mem_singleton] at hc
        exact ⟨tw, hc⟩
  · right
    split_ifs at hc with hl
    · unfold leave_fullscreen_on_workspace at hc
      rcases hf : t.workspaces.find?
          (fun ws => decide (ws.name = cfg.target_workspace.getD cw)) with _ | ws <;>
        simp only [hf] at hc
      · simp at hc
      · rw [List.mem_map] at hc
        obtain ⟨x, -, hx⟩ := hc
        exact ⟨x.id, hx.symm⟩
    · simp at hc

/-- C6: when a post-launch action is needed (marker, scratchpad or
target workspace), the engine subscribes to window-creation events
strictly before issuing the launch command and then enters the event
loop bounded by exactly `event_time_limit`; otherwise it issues the
launch command with no subscription and no event loop. -/
theorem C6_launch_event_listening (cfg : Config) (t : Tree) (cw : Str) :
    (_need_to_listen_to_events cfg = true →
      _handle_not_running cfg t cw =
        launchPrelude cfg t cw ++
          [Cmd.subscribeNewWindow, Cmd.execCmd cfg.command,
           Cmd.runEventLoop cfg.event_time_limit] ∧
      Cmd.subscribeNewWindow ∉ launchPrelude cfg t cw) ∧
    (_need_to_listen_to_events cfg = false →
      _handle_not_running cfg t cw =
        launchPrelude cfg t cw ++ [Cmd.execCmd cfg.command] ∧
      Cmd.subscribeNewWindow ∉ _handle_not_running cfg t cw ∧
      (∀ q, Cmd.runEventLoop q ∉ _handle_not_running cfg t cw)) := by
  constructor
  · intro h
    constructor
    · unfold _handle_not_running
      rw [h]
      simp
    · intro hc
      rcases mem_launchPrelude cfg t cw _ hc with ⟨n, hn⟩ | ⟨i, hi⟩
      · cases hn
      · cases hi
  · intro h
    have htr : _handle_not_running cfg t cw =
        launchPrelude cfg t cw ++ [Cmd.execCmd cfg.command] := by
      unfold _handle_not_running
      rw [h]
      simp
    refine ⟨htr, ?_, ?_⟩
    · rw [htr, List.mem_append]
      rintro (hc | hc)
      · rcases mem_launchPrelude cfg t cw _ hc with ⟨n, hn⟩ | ⟨i, hi⟩
        · cases hn
        · cases hi
      · simp at hc
    · intro q
      rw [htr, List.mem_append]
      rintro (hc | hc)
      · rcases mem_launchPrelude cfg t cw _ hc with ⟨n, hn⟩ | ⟨i, hi⟩
        · cases hn
        · cases hi
      · simp at hc

/-- C6 witness: with the scratchpad requested the trace ends in
subscribe–launch–listen with the configured two-second bound; with no
post-launch action it is launch only. -/
theorem C6_launch_event_listening_witness :
    _need_to_listen_to_events c6witCfg = true ∧
    _handle_not_running c6witCfg emptyTree (str "1") =
      launchPrelude c6witCfg emptyTree (str "1") ++
        [Cmd.subscribeNewWindow, Cmd.execCmd c6witCfg.command,
         Cmd.runEventLoop c6witCfg.event_time_limit] ∧
    _need_to_listen_to_events c6witCfgNoListen = false ∧
    _handle_not_running c6witCfgNoListen emptyTree (str "1") =
      launchPrelude c6witCfgNoListen emptyTree (str "1") ++
        [Cmd.execCmd c6witCfgNoListen.command] ∧
    Cmd.subscribeNewWindow ∉ _handle_not_running c6witCfgNoListen emptyTree (str "1") :=
  ⟨rfl,
   ((C6_launch_event_listening c6witCfg emptyTree (str "1")).1 rfl).1,
   rfl,
   ((C6_launch_event_listening c6witCfgNoListen emptyTree (str "1")).2 rfl).1,
   ((C6_launch_event_listening c6witCfgNoListen emptyTree (str "1")).2 rfl).2.1⟩

/-- C7: the event callback, for a matching new window, issues in order
the scratchpad commands (floating enable, move scratchpad, scratchpad
show) when the scratchpad is requested, then the marker command when a
marker is configured, then the move to the target workspace when one is
configured and the window is not already on it; a non-matching window
triggers no commands. -/
theorem C7_callback_order (cfg : Config) (t : Tree) (w : Con) :
    (_compare_running cfg w = false → _callback_new_window cfg t w = some []) ∧
    (_compare_running cfg w = true → cfg.target_workspace = none →
      _callback_new_window cfg t w = some (
        (if cfg.scratch then
           [Cmd.floatingEnable w.id, Cmd.moveScratchpad w.id, Cmd.scratchpadShow w.id]
         else []) ++
        (match cfg.con_mark with
         | some m => [Cmd.setMark w.id m]
         | none => []))) ∧
    (∀ tw ww, _compare_running cfg w = true → cfg.target_workspace = some tw →
      t.find_by_id w.id = some ww →
      _callback_new_window cfg t w = some (
        (if cfg.scratch then
           [Cmd.floatingEnable w.id, Cmd.moveScratchpad w.id, Cmd.scratchpadShow w.id]
         else []) ++
        (match cfg.con_mark with
         | some m => [Cmd.setMark w.id m]
         | none => []) ++
        (if ww.wsName = tw then [] else [Cmd.moveConToWs ww.id tw]))) := by
  refine ⟨?_, ?_, ?_⟩
  · intro h
    simp [_callback_new_window, h]
  · intro h hta
    simp [_callback_new_window, h, hta]
  · intro tw ww h hta hid
    simp [_callback_new_window, h, hta, hid]

/-- C7 witness: marker and target workspace configured, no scratchpad;
the matching new window found on workspace `1` is marked and moved to
workspace `2`. -/
theorem C7_callback_order_witness :
    _callback_new_window c7witCfg c7witTree c7witCon =
      some [Cmd.setMark c7witCon.id (str "pinned"),
            Cmd.moveConToWs c7witCon.id (str "2")] :=
  ((C7_callback_order c7witCfg c7witTree c7witCon).2.2 (str "2") c7witCon
    (by decide) rfl (by decide)).trans (by decide)

/-- C8: in the raising branch without scratchpad, an unfocused chosen
window receives exactly a focus command (no workspace switch); a focused
one, when the workspace is unchanged since entry, receives the redundant
workspace switch to that same workspace. -/
theorem C8_raise_no_scratch (e : Engine) (w : Con) (cw : Str) :
    (w.focused = false → _handle_running_no_scratch e w = some [Cmd.focusCon w.id]) ∧
    (w.focused = true → Engine.current_ws e = some cw →
      get_current_workspace e.tree = Engine.current_ws e →
      _handle_running_no_scratch e w = some [Cmd.switchWs cw]) := by
  constructor
  · intro h
    simp [_handle_running_no_scratch, h]
  · intro hf hcw _
    have hcw2 : get_current_workspace e.tree = some cw := hcw
    unfold _handle_running_no_scratch
    rw [if_neg (by simp [hf])]
    simp only [hcw, hcw2]
    simp

/-- C8 witness: an unfocused window gets exactly a focus command; the
focused window of the witness engine gets the redundant switch to the
unchanged workspace `1`. -/
theorem C8_raise_no_scratch_witness :
    _handle_running_no_scratch c8witEngine wA = some [Cmd.focusCon wA.id] ∧
    _handle_running_no_scratch c8witEngine c8witCon = some [Cmd.switchWs (str "1")] :=
  ⟨(C8_raise_no_scratch c8witEngine wA (str "1")).1 rfl,
   (C8_raise_no_scratch c8witEngine c8witCon (str "1")).2 rfl (by decide) rfl⟩

/-- C9: the workspace captured at entry and the workspace re-read before
switching both derive from the single tree snapshot fetched at
construction, so the guarding comparison always holds and, for every
focused chosen window with the scratchpad unset, the workspace switch is
issued unconditionally — the no-switch branch is unreachable. -/
theorem C9_redundant_switch_unconditional (e : Engine) (w : Con) (cw : Str)
    (hf : w.focused = true) (hcw : Engine.current_ws e = some cw) :
    get_current_workspace e.tree = Engine.current_ws e ∧
    _handle_running_no_scratch e w = some [Cmd.switchWs cw] := by
  have hcw2 : get_current_workspace e.tree = some cw := hcw
  refine ⟨rfl, ?_⟩
  unfold _handle_running_no_scratch
  rw [if_neg (by simp [hf])]
  simp only [hcw, hcw2]
  simp

/-- C9 witness: the witness engine's focused window always receives the
switch command. -/
theorem C9_redundant_switch_unconditional_witness :
    get_current_workspace c8witEngine.tree = Engine.current_ws c8witEngine ∧
    _handle_running_no_scratch c8witEngine c8witCon = some [Cmd.switchWs (str "1")] :=
  C9_redundant_switch_unconditional c8witEngine c8witCon (str "1") rfl (by decide)

/-- C10: after construction the target workspace is the explicit target
workspace if given, else the search workspace; configuring only a search
workspace (no marker, no scratchpad, no explicit target) therefore makes
the target workspace non-empty, so the engine subscribes to
window-creation events, enters the bounded event loop after launching,
and moves matching new windows to that workspace. -/
theorem C10_workspace_implies_listen (a : Config) (wsn : Str) (cfg : Config)
    (hws : a.workspace = some wsn) (hta : a.target_workspace = none)
    (hmark : a.con_mark = none) (hscr : a.scratch = false)
    (hok : mkConfig a = Except.ok cfg) :
    (∀ b cfgb : Config, mkConfig b = Except.ok cfgb →
      cfgb.target_workspace =
        (match b.target_workspace with
         | some t => some t
         | none => b.workspace)) ∧
    cfg.target_workspace = some wsn ∧
    _need_to_listen_to_events cfg = true ∧
    (∀ t cw, _handle_not_running cfg t cw =
      launchPrelude cfg t cw ++
        [Cmd.subscribeNewWindow, Cmd.execCmd cfg.command,
         Cmd.runEventLoop cfg.event_time_limit]) ∧
    (∀ t' win ww, _compare_running cfg win = true →
      t'.find_by_id win.id = some ww → ¬ww.wsName = wsn →
      _callback_new_window cfg t' win = some [Cmd.moveConToWs ww.id wsn]) := by
  have hextract : ∀ b cfgb : Config, mkConfig b = Except.ok cfgb →
      cfgb = applyDefaults b := by
    intro b cfgb hokb
    unfold mkConfig at hokb
    cases h : _check_args (applyDefaults b) <;> rw [h] at hokb
    · injection hokb with h'
      exact h'.symm
    · cases hokb
  have hcfg : cfg = applyDefaults a := hextract a cfg hok
  subst hcfg
  have htgt : (applyDefaults a).target_workspace = some wsn := by
    show (match a.target_workspace with
          | some t => some t
          | none => a.workspace) = some wsn
    rw [hta, hws]
  have hscr2 : (applyDefaults a).scratch = false := hscr
  have hmark2 : (applyDefaults a).con_mark = none := hmark
  have hlisten : _need_to_listen_to_events (applyDefaults a) = true := by
    unfold _need_to_listen_to_events
    rw [hscr2, hmark2, htgt]
    rfl
  refine ⟨?_, htgt, hlisten, ?_, ?_⟩
  · intro b cfgb hokb
    rw [hextract b cfgb hokb]
    rfl
  · intro t cw
    unfold _handle_not_running
    rw [hlisten]
    simp
  · intro t' win ww hcmp hid hne
    unfold _callback_new_window
    rw [hcmp]
    simp only [hscr2, hmark2, htgt, hid, if_neg hne]
    simp

/-- C10 witness: search workspace `2` only; the built configuration
targets `2`, listens for events, and the callback moves a matching new
window found on workspace `1` to workspace `2`. -/
theorem C10_workspace_implies_listen_witness :
    mkConfig c10witArgs = Except.ok c10witCfg ∧
    c10witCfg.target_workspace = some (str "2") ∧
    _need_to_listen_to_events c10witCfg = true ∧
    _handle_not_running c10witCfg emptyTree (str "1") =
      launchPrelude c10witCfg emptyTree (str "1") ++
        [Cmd.subscribeNewWindow, Cmd.execCmd c10witCfg.command,
         Cmd.runEventLoop c10witCfg.event_time_limit] ∧
    _callback_new_window c10witCfg c10witTree c10witCon =
      some [Cmd.moveConToWs c10witCon.id (str "2")] := by
  have hok : mkConfig c10witArgs = Except.ok c10witCfg := rfl
  obtain ⟨-, h2, h3, h4, h5⟩ :=
    C10_workspace_implies_listen c10witArgs (str "2") c10witCfg rfl rfl rfl rfl hok
  exact ⟨hok, h2, h3, h4 emptyTree (str "1"),
    h5 c10witTree c10witCon c10witCon (by decide) (by decide) (by decide)⟩

end Rol
